import Mathlib

/-!
Verification development for the kagebunshin web-automation agent.

Shallow embedding of the core control flow of:
  * `kagebunshin/state_manager.py` (`WebVoyagerStateManager`): element
    resolution, the two-stage (native then human-like) execution discipline
    for `click` / `type_text` / `browser_select_option`, the simple actions
    (`hover`), and `wait_for`;
  * `kagebunshin/tools/delegation.py` (`delegate`, `run_single_task`);
  * `kagebunshin/webvoyager_v2.py` (`WebVoyagerV2.create`, `dispose`,
    `ainvoke`, `_extract_final_answer`);
  * `kagebunshin/utils.py` (`annotate_page`, `_annotate_html_page`,
    `_annotate_pdf_page`).

External effects (the Playwright driver, the LLM, the group chat) are
modelled by explicit environment records whose fields give the outcome of
each driver call (`Except` for fallible calls).  Python exceptions raised
and caught inside the embedded functions are modelled with `Except`;
a function that catches every exception is embedded as a total Lean
function.
-/

set_option autoImplicit false

namespace Kagebunshin

/-- Bounding box of an interactive element, as produced by the page
annotation (`models.BBox`).  Only the fields read by the embedded control
flow are kept: `isCaptcha` and the optional `selector`. -/
structure BBox where
  isCaptcha : Bool
  selector : Option String
  deriving Repr, DecidableEq

/-- Page state triple captured by
`WebVoyagerStateManager._capture_page_state` (state_manager.py:219-231):
URL, SHA-256 hash of the serialized DOM, and number of open tabs. -/
structure PageState where
  url : String
  domHash : String
  numTabs : Nat
  deriving Repr, DecidableEq

/-- Embedding of `WebVoyagerStateManager._get_bbox_by_id`
(state_manager.py:169-173): return the box when `0 <= bbox_id < len`. -/
def getBBoxById (bboxes : List BBox) (bboxId : Int) : Option BBox :=
  if 0 ≤ bboxId ∧ bboxId < (bboxes.length : Int) then bboxes[bboxId.toNat]? else none

/-- Error message raised by `_get_selector` for an out-of-range index. -/
def invalidBBoxMsg (bboxes : List BBox) (bboxId : Int) : String :=
  "Invalid bbox_id: " ++ toString bboxId ++ ". Valid range: 0-" ++
    toString ((bboxes.length : Int) - 1)

/-- Error message raised by `_get_selector` for a CAPTCHA-marked element. -/
def captchaMsg (bboxId : Int) : String :=
  "Action failed: Element " ++ toString bboxId ++ " is identified as a CAPTCHA."

/-- Embedding of `WebVoyagerStateManager._get_selector`
(state_manager.py:175-188).  Raises (models: returns `.error`) on an
out-of-range index or a CAPTCHA-marked element; otherwise returns the
recorded selector, falling back to a `data-ai-label` selector. -/
def getSelector (bboxes : List BBox) (bboxId : Int) : Except String String :=
  match getBBoxById bboxes bboxId with
  | none => .error (invalidBBoxMsg bboxes bboxId)
  | some bbox =>
    if bbox.isCaptcha then .error (captchaMsg bboxId)
    else
      match bbox.selector with
      | some sel => .ok sel
      | none => .ok ("[data-ai-label=\"" ++ toString bboxId ++ "\"]")

/-- Result of one tool action: the string returned to the LLM, how much
`increment_action_count` was called (0 or 1), and whether the code
observed a page-state change (i.e. re-captured the state triple and found
it different from the pre-state).  Actions that never call
`_capture_page_state` have `observedChange = false` by construction. -/
structure ActionResult where
  message : String
  countDelta : Nat
  observedChange : Bool
  deriving Repr, DecidableEq

/-- Environment of one two-stage action invocation: the bboxes of the last
observation, the captured pre-state, and the outcomes of the two driver
attempts.  `native` / `fallbackHuman` are the state captured after the
stage completed (`.ok`), or the exception message the stage raised
(`.error`).  For the native stage the outcome only applies after
`_get_selector` succeeded; for the human-like stage only after
`_get_bbox_by_id` succeeded (the human-like paths of `click` and
`type_text` resolve the box directly and never consult `_get_selector`,
state_manager.py:256-297). -/
structure ActionEnv where
  bboxes : List BBox
  before : PageState
  native : Except String PageState
  fallbackHuman : Except String PageState
  deriving Repr

/-- Outcome of the native stage of `click` (state_manager.py:235-239):
`_get_selector` may raise before the driver is reached. -/
def nativeOutcome (env : ActionEnv) (bboxId : Int) : Except String PageState :=
  match getSelector env.bboxes bboxId with
  | .error e => .error e
  | .ok _ => env.native

/-- Outcome of the human-like fallback of `click` and `type_text`
(state_manager.py:256-297): `_get_bbox_by_id` may raise on an invalid
index, but a CAPTCHA-marked box is NOT refused on this path. -/
def fallbackOutcome (env : ActionEnv) (bboxId : Int) : Except String PageState :=
  match getBBoxById env.bboxes bboxId with
  | none => .error ("Invalid bbox_id " ++ toString bboxId)
  | some _ => env.fallbackHuman

/-- Outcome of the human-like fallback of `browser_select_option`
(state_manager.py:299-318), which resolves both the box and the selector,
so a CAPTCHA-marked box raises here as well. -/
def fallbackSelectOutcome (env : ActionEnv) (bboxId : Int) : Except String PageState :=
  match getBBoxById env.bboxes bboxId with
  | none => .error ("Invalid bbox_id " ++ toString bboxId)
  | some _ =>
    match getSelector env.bboxes bboxId with
    | .error e => .error e
    | .ok _ => env.fallbackHuman

/-- Generic two-stage execution discipline shared verbatim by `click`
(state_manager.py:324-370), `type_text` (372-418) and
`browser_select_option` (420-466): try the native stage; on a captured
state change increment and return success; otherwise (no change, or an
exception) run the fallback stage; on a captured change increment and
return the fallback success string; on a captured no-change return the
"had no effect" error without incrementing; on a fallback exception
return the "all attempts failed" error without incrementing. -/
def twoStage (before : PageState) (native fallback : Except String PageState)
    (okNative okFallback noEffectMsg failPrefix : String) : ActionResult :=
  match native with
  | .ok afterState =>
    if afterState = before then
      match fallback with
      | .ok finalState =>
        if finalState = before then
          { message := noEffectMsg, countDelta := 0, observedChange := false }
        else
          { message := okFallback, countDelta := 1, observedChange := true }
      | .error e =>
        { message := failPrefix ++ e, countDelta := 0, observedChange := false }
    else
      { message := okNative, countDelta := 1, observedChange := true }
  | .error _ =>
    match fallback with
    | .ok finalState =>
      if finalState = before then
        { message := noEffectMsg, countDelta := 0, observedChange := false }
      else
        { message := okFallback, countDelta := 1, observedChange := true }
    | .error e =>
      { message := failPrefix ++ e, countDelta := 0, observedChange := false }

/-- Embedding of `WebVoyagerStateManager.click` (state_manager.py:324-370). -/
def click (env : ActionEnv) (bboxId : Int) : ActionResult :=
  twoStage env.before (nativeOutcome env bboxId) (fallbackOutcome env bboxId)
    ("Successfully clicked element " ++ toString bboxId ++ ".")
    ("Successfully clicked element " ++ toString bboxId ++ " using fallback.")
    ("Error: Clicking element " ++ toString bboxId ++ " had no effect on the page.")
    ("Error: All click attempts failed for element " ++ toString bboxId ++ ". Last error: ")

/-- Embedding of `WebVoyagerStateManager.type_text` (state_manager.py:372-418). -/
def typeText (env : ActionEnv) (bboxId : Int) (textContent : String) : ActionResult :=
  twoStage env.before (nativeOutcome env bboxId) (fallbackOutcome env bboxId)
    ("Successfully typed \x27" ++ textContent ++ "\x27 into element " ++ toString bboxId ++ ".")
    ("Successfully typed \x27" ++ textContent ++ "\x27 into element " ++ toString bboxId ++
      " using fallback.")
    ("Error: Typing into element " ++ toString bboxId ++ " had no effect on the page.")
    ("Error: All type attempts failed for element " ++ toString bboxId ++ ". Last error: ")

/-- Embedding of `WebVoyagerStateManager.browser_select_option`
(state_manager.py:420-466).  `values` is rendered by Python as a list
literal inside the messages; the rendering is taken as given. -/
def selectOption (env : ActionEnv) (bboxId : Int) (valuesRepr : String) : ActionResult :=
  twoStage env.before (nativeOutcome env bboxId) (fallbackSelectOutcome env bboxId)
    ("Successfully selected " ++ valuesRepr ++ " in element " ++ toString bboxId ++ ".")
    ("Successfully selected " ++ valuesRepr ++ " in element " ++ toString bboxId ++
      " using fallback.")
    ("Error: Selecting in element " ++ toString bboxId ++ " had no effect on the page.")
    ("Error: All select attempts failed for element " ++ toString bboxId ++ ". Last error: ")

/-- Embedding of `WebVoyagerStateManager.hover` (state_manager.py:704-714):
resolve the selector (refusing CAPTCHA and out-of-range), hover, and on
success increment the action count unconditionally — no page state is
captured, so `observedChange` is `false` in every branch. -/
def hover (bboxes : List BBox) (hoverCall : Except String Unit) (bboxId : Int) : ActionResult :=
  match getSelector bboxes bboxId with
  | .error e =>
    { message := "Error hovering over element " ++ toString bboxId ++ ": " ++ e,
      countDelta := 0, observedChange := false }
  | .ok _ =>
    match hoverCall with
    | .error e =>
      { message := "Error hovering over element " ++ toString bboxId ++ ": " ++ e,
        countDelta := 0, observedChange := false }
    | .ok _ =>
      { message := "Hovered over element " ++ toString bboxId ++ ".",
        countDelta := 1, observedChange := false }

/-- Running total of the action counter over a sequence of action results
(`increment_action_count`, state_manager.py:101-103, adds `countDelta`
per action). -/
def applyCounts (start : Nat) (results : List ActionResult) : Nat :=
  results.foldl (fun c r => c + r.countDelta) start

/-- Result of a `wait_for` call: the returned string, the action-count
delta (the source never calls `increment_action_count` in `wait_for`),
and whether a driver wait was actually performed. -/
structure WaitResult where
  message : String
  countDelta : Nat
  waited : Bool
  deriving Repr, DecidableEq

/-- Environment of one `wait_for` invocation: outcome of
`get_current_page` and of the `wait_for_selector` driver call. -/
structure WaitEnv where
  pageOk : Except String Unit
  bboxes : List BBox
  waitSelectorCall : Except String Unit
  deriving Repr

/-- Embedding of `WebVoyagerStateManager.wait_for`
(state_manager.py:740-771).  Time is modelled as a rational (Python
float seconds). -/
def waitFor (env : WaitEnv) (time : Option ℚ) (bboxId : Option Int)
    (state : String) : WaitResult :=
  match env.pageOk with
  | .error e => { message := "Error in wait_for: " ++ e, countDelta := 0, waited := false }
  | .ok _ =>
    match time with
    | some t =>
      if t > 20 then
        { message := "Error: Time cannot be greater than 20 seconds", countDelta := 0,
          waited := false }
      else if t < 0 then
        { message := "Error: Time cannot be negative", countDelta := 0, waited := false }
      else
        { message := "Waited for " ++ toString t ++ " seconds.", countDelta := 0,
          waited := true }
    | none =>
      match bboxId with
      | some bid =>
        if state ≠ "attached" ∧ state ≠ "detached" then
          { message := "Error: state must be \x27attached\x27 or \x27detached\x27",
            countDelta := 0, waited := false }
        else
          match getSelector env.bboxes bid with
          | .error e =>
            { message := "Error in wait_for: " ++ e, countDelta := 0, waited := false }
          | .ok _ =>
            match env.waitSelectorCall with
            | .error e =>
              { message := "Error in wait_for: " ++ e, countDelta := 0, waited := true }
            | .ok _ =>
              let stateVerb := if state = "attached" then "appear" else "disappear"
              { message := "Waited for element " ++ toString bid ++ " to " ++ stateVerb ++ ".",
                countDelta := 0, waited := true }
      | none =>
        { message := "No wait condition provided.", countDelta := 0, waited := false }

/-! Global agent instance counter.

`WebVoyagerV2` (webvoyager_v2.py) keeps a process-global `_INSTANCE_COUNT`.
`create` (lines 124-141) raises `RuntimeError` when the counter has
reached the cap, otherwise builds the instance and increments;
`dispose` (lines 116-122) decrements only when the counter is positive.
The delegation module (`tools/delegation.py`) uses the structurally
identical `KageBunshinAgent` counter; its `create` / `dispose` are
modelled by the same functions.  The counter is an arbitrary-precision
Python integer, modelled as `Int`. -/

/-- Error message of `WebVoyagerV2.create` at the cap (webvoyager_v2.py:135-137). -/
def instanceLimitMsg (maxInstances : Int) : String :=
  "Instance limit reached: at most " ++ toString maxInstances ++
    " WebVoyagerV2 instances are allowed."

/-- Embedding of the capacity guard and increment of `WebVoyagerV2.create`
(webvoyager_v2.py:133-141): refuse (raise `RuntimeError`) when
`_INSTANCE_COUNT >= max`, otherwise increment. -/
def createAgent (maxInstances count : Int) : Except String Int :=
  if count ≥ maxInstances then .error (instanceLimitMsg maxInstances)
  else .ok (count + 1)

/-- Embedding of `WebVoyagerV2.dispose` (webvoyager_v2.py:116-122):
decrement the global counter when it is positive, otherwise leave it.
The method reads no per-instance state — in particular no
already-disposed flag — so it is a function of the counter alone. -/
def dispose (count : Int) : Int :=
  if count > 0 then count - 1 else count

/-- Process-level counter event: an agent creation attempt or a disposal. -/
inductive CounterEvent where
  | create
  | disposeEvent
  deriving Repr, DecidableEq

/-- Effect of one counter event on the global counter: a refused creation
(cap reached) leaves the counter unchanged. -/
def stepCounter (maxInstances : Int) (count : Int) : CounterEvent → Int
  | .create =>
    match createAgent maxInstances count with
    | .ok c => c
    | .error _ => count
  | .disposeEvent => dispose count

/-- Counter after a sequence of events. -/
def runCounter (maxInstances : Int) (count : Int) (events : List CounterEvent) : Int :=
  events.foldl (stepCounter maxInstances) count

/-! Delegation (`tools/delegation.py`). -/

/-- Status field of a per-task delegation entry. -/
inductive Status where
  | ok
  | denied
  | error
  deriving Repr, DecidableEq

/-- One entry of the JSON array returned by `delegate`: the dict
`{"task": ..., "status": ..., "result" | "error": ...}` built by
`run_single_task`; `payload` is the `result` (status ok) or `error`
(status denied / error) value. -/
structure Entry where
  task : String
  status : Status
  payload : String
  deriving Repr, DecidableEq

/-- Environment of one `run_single_task` invocation
(delegation.py:186-254): the counter value read at the best-effort
pre-check, whether `context.browser` is available, the outcome of
`browser.new_context`, the counter value read inside
`KageBunshinAgent.create`, and the outcome of running the clone
(`clone.ainvoke`). -/
structure TaskEnv where
  liveAtPrecheck : Int
  browserAvailable : Bool
  newContextCall : Except String Unit
  liveAtCreate : Int
  runCall : Except String String
  deriving Repr

/-- Trace of one `run_single_task` invocation: the produced entry, whether
a fresh browser context was created, and the `clone_depth` of the clone
agent if one was created. -/
structure TaskTrace where
  entry : Entry
  contextCreated : Bool
  spawnedDepth : Option Nat
  deriving Repr, DecidableEq

/-- Modelled from the spec: `MAX_KAGEBUNSHIN_INSTANCES` lives in
`kagebunshin/config/settings.py`, which is absent from the sources; the
spec gives `MAX_AGENTS` default 5.  Its exact value is irrelevant to the
theorems below, which quantify over the cap. -/
def MAX_KAGEBUNSHIN_INSTANCES : Int := 5

/-- Clone-depth cap of `delegate`.  The source hardcodes the literal 3 in
the guard `if current_depth >= 3` (delegation.py:176); no configurable
`MAX_CLONE_DEPTH` constant exists in the sources. -/
def MAX_CLONE_DEPTH : Nat := 3

/-- Depth-denial error payload of `delegate` (delegation.py:177). -/
def depthErrMsg (depth : Nat) : String :=
  "Maximum clone depth (" ++ toString depth ++ ") reached. Consider alternative approaches."

/-- Invalid-argument error payload of `delegate` for an empty task list
(delegation.py:167-168). -/
def emptyTasksMsg : String :=
  "\x27tasks\x27 must be a non-empty list of strings"

/-- Embedding of `run_single_task` (delegation.py:186-254) for a parent at
`parentDepth`.  Every branch returns an entry — the body is wrapped in
`try/except Exception`, so nothing escapes to the caller.  `create` is
refused via `RuntimeError` exactly when the counter has reached the cap
(the guard of `WebVoyagerV2.create`); that refusal is answered with a
denied entry (delegation.py:223-224). -/
def runSingleTask (parentDepth : Nat) (maxInstances : Int) (task : String)
    (env : TaskEnv) : TaskTrace :=
  if env.liveAtPrecheck ≥ maxInstances then
    { entry := { task := task, status := .denied,
                 payload := "Delegation denied: max agents reached (" ++
                   toString maxInstances ++ ")." },
      contextCreated := false, spawnedDepth := none }
  else if ¬ env.browserAvailable then
    { entry := { task := task, status := .error,
                 payload := "Cannot create new BrowserContext from the current context" },
      contextCreated := false, spawnedDepth := none }
  else
    match env.newContextCall with
    | .error e =>
      { entry := { task := task, status := .error, payload := e },
        contextCreated := false, spawnedDepth := none }
    | .ok _ =>
      match createAgent maxInstances env.liveAtCreate with
      | .error e =>
        { entry := { task := task, status := .denied,
                     payload := "Delegation denied: " ++ e },
          contextCreated := true, spawnedDepth := none }
      | .ok _ =>
        match env.runCall with
        | .ok result =>
          { entry := { task := task, status := .ok, payload := result },
            contextCreated := true, spawnedDepth := some (parentDepth + 1) }
        | .error e =>
          { entry := { task := task, status := .error, payload := e },
            contextCreated := true, spawnedDepth := some (parentDepth + 1) }

/-- Outcome of one `delegate` call: either a single structured error
(the JSON object `{"error": ...}`, modelled by `.error` carrying its
message) or the JSON array of per-task entries, together with the traces
of the tasks that were run. -/
structure DelegateOutcome where
  result : Except String (List Entry)
  traces : List TaskTrace
  deriving Repr

/-- Embedding of the `delegate` tool (delegation.py:151-259): refuse an
empty task list; refuse when the caller depth has reached the hardcoded
cap (before anything is spawned); otherwise run every task through
`run_single_task` — `asyncio.gather` with the task list preserves input
order — and return the entries in input order. -/
def delegate (cloneDepth : Nat) (tasks : List (String × TaskEnv)) : DelegateOutcome :=
  if tasks.isEmpty then
    { result := .error emptyTasksMsg, traces := [] }
  else if cloneDepth ≥ MAX_CLONE_DEPTH then
    { result := .error (depthErrMsg cloneDepth), traces := [] }
  else
    let traces := tasks.map fun p =>
      runSingleTask cloneDepth MAX_KAGEBUNSHIN_INSTANCES p.1 p.2
    { result := .ok (traces.map TaskTrace.entry), traces := traces }

/-! Reason/act loop (`webvoyager_v2.py`).

Python string primitives (`in`, `startswith`, `strip`, `replace`,
`len`) are modelled on the character list of the string so that every
definition evaluates by kernel reduction. -/

/-- Decidable check that `pat` begins `l`. -/
def leadsList : List Char → List Char → Bool
  | [], _ => true
  | _ :: _, [] => false
  | a :: as, b :: bs => a == b && leadsList as bs

/-- Decidable occurrence of `pat` inside `l`. -/
def occursIn : List Char → List Char → Bool
  | pat, [] => leadsList pat []
  | pat, c :: rest => leadsList pat (c :: rest) || occursIn pat rest

/-- Substring test: Python `pat in s`. -/
def strContains (s pat : String) : Bool :=
  occursIn pat.data s.data

/-- Python `s.strip()` on the character list: drop whitespace from both
ends. -/
def stripChars (l : List Char) : List Char :=
  ((l.dropWhile Char.isWhitespace).reverse.dropWhile Char.isWhitespace).reverse

/-- Python `s.strip()`. -/
def pyStrip (s : String) : String :=
  ⟨stripChars s.data⟩

/-- Python `s.startswith(pre)`. -/
def pyStartsWith (s pre : String) : Bool :=
  leadsList pre.data s.data

/-- Replacement of every occurrence of `pat` by `rep`, fuelled by the
input length (each step consumes at least one character, so the fuel
never runs out on the initial call). -/
def replaceAllFuel (pat rep : List Char) : Nat → List Char → List Char
  | 0, l => l
  | _ + 1, [] => []
  | n + 1, c :: rest =>
    if pat ≠ [] ∧ leadsList pat (c :: rest) = true then
      rep ++ replaceAllFuel pat rep n (rest.drop (pat.length - 1))
    else c :: replaceAllFuel pat rep n rest

/-- Python `s.replace(pat, rep)` for a non-empty pattern. -/
def pyReplace (s pat rep : String) : String :=
  ⟨replaceAllFuel pat.data rep.data s.data.length s.data⟩

/-- Recursion limit literal passed by `WebVoyagerV2.ainvoke` to the graph
(`config={"recursion_limit": 100}`, webvoyager_v2.py:187).  The
`RECURSION_LIMIT = 150` constant of config.py:37 is not referenced there. -/
def RECURSION_LIMIT_PASSED : Nat := 100

/-- Sentinel returned by `_extract_final_answer` when no message
qualifies (webvoyager_v2.py:394). -/
def noAnswerSentinel : String :=
  "Task completed, but no specific answer was provided."

/-- First scan of `_extract_final_answer` (webvoyager_v2.py:382-386): a
message with truthy content containing the final-answer marker. -/
def hasFinalMarker (content : String) : Bool :=
  content != "" && strContains content "[FINAL ANSWER]"

/-- Second scan of `_extract_final_answer` (webvoyager_v2.py:388-392): a
message whose stripped content is non-empty, does not start with a
bracket, and is longer than 10 characters. -/
def qualifiesFallback (content : String) : Bool :=
  content != "" &&
    (let t := pyStrip content
     t != "" && !(pyStartsWith t "[") && decide (t.data.length > 10))

/-- Embedding of `WebVoyagerV2._extract_final_answer`
(webvoyager_v2.py:380-394) over the list of message contents in
conversation order. -/
def extractFinalAnswer (contents : List String) : String :=
  match contents.reverse.find? hasFinalMarker with
  | some c => pyStrip (pyReplace c "[FINAL ANSWER]" "")
  | none =>
    match contents.reverse.find? qualifiesFallback with
    | some c => pyStrip c
    | none => noAnswerSentinel

/-- Behaviour of the LLM on one turn of the graph: the assistant message
content, whether it carries tool calls, and — when it does — the content
the action node appends as the tool result. -/
structure LoopStep where
  content : String
  hasToolCalls : Bool
  toolResult : String
  deriving Repr

/-- Execution of the compiled graph under a recursion limit, counted in
supersteps (one per node execution, as LangGraph counts them): the agent
node appends the assistant message; if it carries tool calls the action
node appends the tool result and control returns to the agent node;
exhausting the limit raises `GraphRecursionError`, modelled as `.error`. -/
def runGraph (policy : Nat → LoopStep) : Nat → Nat → List String → Except Unit (List String)
  | 0, _, _ => .error ()
  | Nat.succ fuel, turn, msgs =>
    let step := policy turn
    let msgs2 := msgs ++ [step.content]
    if step.hasToolCalls then
      match fuel with
      | 0 => .error ()
      | Nat.succ fuel2 => runGraph policy fuel2 (turn + 1) (msgs2 ++ [step.toolResult])
    else .ok msgs2

/-- Embedding of `WebVoyagerV2.ainvoke` (webvoyager_v2.py:166-197): run
the graph with recursion limit 100 and extract the final answer from the
final message list.  `GraphRecursionError` is not caught anywhere in
`ainvoke`, so on limit exhaustion it propagates to the caller
(`.error ()`): no answer string is produced. -/
def ainvokeModel (policy : Nat → LoopStep) (userQuery : String) : Except Unit String :=
  match runGraph policy RECURSION_LIMIT_PASSED 0 [userQuery] with
  | .ok finalMsgs => .ok (extractFinalAnswer finalMsgs)
  | .error e => .error e

/-! Observation builder (`utils.py`). -/

/-- Frame statistics of an annotation (`models.FrameStats`). -/
structure FrameStats where
  totalFrames : Nat
  accessibleFrames : Nat
  maxDepth : Nat
  deriving Repr, DecidableEq

/-- Page annotation (`models.Annotation`) restricted to the fields the
embedded control flow constructs and the claims mention; the viewport
category counts are elided. -/
structure Annotation where
  img : String
  bboxes : List BBox
  markdown : String
  totalElements : Nat
  frameStats : FrameStats
  deriving Repr, DecidableEq

/-- Result of one successful `markPage()` evaluation. -/
structure MarkResult where
  coordinates : List BBox
  frameStats : FrameStats
  deriving Repr, DecidableEq

/-- Default mark result installed when all ten `markPage()` retries fail
(utils.py:108-109). -/
def defaultMarkResult : MarkResult :=
  { coordinates := [], frameStats := { totalFrames := 0, accessibleFrames := 0, maxDepth := 0 } }

/-- First successful outcome among the first `n` retry attempts; missing
attempts count as failures. -/
def firstOkMark : Nat → List (Except String MarkResult) → Option MarkResult
  | 0, _ => none
  | _ + 1, [] => none
  | n + 1, a :: rest =>
    match a with
    | .ok m => some m
    | .error _ => firstOkMark n rest

/-- Environment of one `annotate_page` call: the page URL, the outcome of
`page.content()`, the outcomes of the PDF path (fetch-and-parse, then
screenshot-and-unmark), whether the network-idle (3 s) and load (5 s)
waits succeeded, the message of the load failure, the outcome of
injecting the instrumentation script, the outcomes of successive
`markPage()` evaluations, and the outcome of `page.screenshot()`
(already base64-encoded). -/
structure PageEnv where
  url : String
  content : Except String String
  pdfFetchParse : Except String String
  pdfShot : Except String String
  waitNetworkIdle : Bool
  waitLoad : Bool
  loadErr : String
  evalInject : Except String Unit
  markPageAttempts : List (Except String MarkResult)
  screenshotCall : Except String String
  deriving Repr

/-- Truncation of the extracted PDF text to its first 5000
whitespace-separated tokens (utils.py:51-53, Python `text.split()`). -/
def truncateWords (text : String) : String :=
  String.intercalate " " (((text.split Char.isWhitespace).filter (fun w => w != "")).take 5000)

/-- Degraded annotation shared by every failure branch of the builder:
empty element list, no screenshot, explanatory markdown. -/
def degradedObs (markdown : String) : Annotation :=
  { img := "", bboxes := [], markdown := markdown, totalElements := 0,
    frameStats := { totalFrames := 0, accessibleFrames := 0, maxDepth := 0 } }

/-- Embedding of `_annotate_pdf_page` (utils.py:36-75): the whole body is
one `try/except` returning a degraded annotation on any failure. -/
def annotatePdfPage (env : PageEnv) : Annotation :=
  match env.pdfFetchParse with
  | .error e =>
    degradedObs ("Failed to extract text from PDF at " ++ env.url ++ ". Error: " ++ e)
  | .ok text =>
    match env.pdfShot with
    | .error e =>
      degradedObs ("Failed to extract text from PDF at " ++ env.url ++ ". Error: " ++ e)
    | .ok shot =>
      { img := shot, bboxes := [], markdown := truncateWords text, totalElements := 0,
        frameStats := { totalFrames := 0, accessibleFrames := 0, maxDepth := 0 } }

/-- Embedding of `_annotate_html_page` (utils.py:78-142): stabilize the
load (network idle then load, degrading when both waits fail); then under
a `try/except`, inject the script, evaluate `markPage()` with up to ten
retries defaulting to an empty result, take a screenshot, and return the
annotation; any exception in that block yields a degraded annotation. -/
def annotateHtmlPage (env : PageEnv) : Annotation :=
  if ¬ env.waitNetworkIdle ∧ ¬ env.waitLoad then
    degradedObs ("Failed to stabilize page load. Error: " ++ env.loadErr)
  else
    match env.evalInject with
    | .error e => degradedObs ("Failed to annotate page. Error: " ++ e)
    | .ok _ =>
      let mark := (firstOkMark 10 env.markPageAttempts).getD defaultMarkResult
      match env.screenshotCall with
      | .error e => degradedObs ("Failed to annotate page. Error: " ++ e)
      | .ok shot =>
        { img := shot, bboxes := mark.coordinates, markdown := "",
          totalElements := mark.coordinates.length, frameStats := mark.frameStats }

/-- PDF detection of `annotate_page` (utils.py:148-150) on the served
content. -/
def detectsPdf (content : String) : Bool :=
  strContains content "type=\"application/pdf\"" || strContains content "class=\"pdf"

/-- Embedding of `annotate_page` (utils.py:145-157): route to the PDF
path when the content is readable and carries a PDF marker; a failing
`page.content()` is caught and the HTML path is taken. -/
def annotatePage (env : PageEnv) : Annotation :=
  match env.content with
  | .ok c => if detectsPdf c then annotatePdfPage env else annotateHtmlPage env
  | .error _ => annotateHtmlPage env

/-! Remaining browser actions of `state_manager.py`.  Each simple action
wraps its body in `try/except`, captures no page state, and calls
`increment_action_count` once just before its success return; the
read-only tools (`list_tabs`, `extract_page_content`, `take_note`,
`wait_for`) never call it.  Driver calls are modelled as `Except`
outcomes in the argument list. -/

/-- Python `s.lower()` (via `Char.toLower`). -/
def pyLower (s : String) : String :=
  ⟨s.data.map Char.toLower⟩

/-- URL prefixing shared by `browser_goto` and `open_new_tab`
(state_manager.py:674-675, 824-825): prepend `https://` unless the URL
already starts with an HTTP scheme. -/
def normalizeUrl (url : String) : String :=
  if pyStartsWith url "http://" || pyStartsWith url "https://" then url
  else "https://" ++ url

/-- Embedding of `press_key` (state_manager.py:716-725). -/
def pressKey (pressCall : Except String Unit) (key : String) : ActionResult :=
  match pressCall with
  | .ok _ =>
    { message := "Pressed key \x27" ++ key ++ "\x27.",
      countDelta := 1, observedChange := false }
  | .error e =>
    { message := "Error pressing key \x27" ++ key ++ "\x27: " ++ e,
      countDelta := 0, observedChange := false }

/-- Embedding of `drag` (state_manager.py:727-738): both endpoints go
through `_get_selector` (so CAPTCHA and out-of-range raise, caught by
the handler), then the driver drags. -/
def drag (bboxes : List BBox) (dragCall : Except String Unit)
    (startId endId : Int) : ActionResult :=
  let errMsg := fun (e : String) =>
    { message := "Error dragging from " ++ toString startId ++ " to " ++
        toString endId ++ ": " ++ e,
      countDelta := 0, observedChange := false : ActionResult }
  match getSelector bboxes startId with
  | .error e => errMsg e
  | .ok _ =>
    match getSelector bboxes endId with
    | .error e => errMsg e
    | .ok _ =>
      match dragCall with
      | .error e => errMsg e
      | .ok _ =>
        { message := "Dragged element " ++ toString startId ++ " to element " ++
            toString endId ++ ".",
          countDelta := 1, observedChange := false }

/-- Embedding of `refresh` (state_manager.py:515-525). -/
def refresh (reloadCall : Except String Unit) : ActionResult :=
  match reloadCall with
  | .ok _ =>
    { message := "Successfully refreshed the page.", countDelta := 1, observedChange := false }
  | .error e =>
    { message := "Error refreshing page: " ++ e, countDelta := 0, observedChange := false }

/-- Embedding of `go_back` (state_manager.py:654-669). -/
def goBack (backCall : Except String Unit) : ActionResult :=
  match backCall with
  | .ok _ =>
    { message := "Successfully navigated back", countDelta := 1, observedChange := false }
  | .error e =>
    { message := "Error going back: " ++ e, countDelta := 0, observedChange := false }

/-- Embedding of `go_forward` (state_manager.py:691-702). -/
def goForward (forwardCall : Except String Unit) : ActionResult :=
  match forwardCall with
  | .ok _ =>
    { message := "Successfully navigated forward", countDelta := 1, observedChange := false }
  | .error e =>
    { message := "Error going forward: " ++ e, countDelta := 0, observedChange := false }

/-- Embedding of `browser_goto` (state_manager.py:671-689): the URL is
prefixed before the driver call, and both the success and the error
message carry the prefixed URL. -/
def browserGoto (gotoCall : Except String Unit) (url : String) : ActionResult :=
  let u := normalizeUrl url
  match gotoCall with
  | .ok _ =>
    { message := "Successfully navigated to " ++ u, countDelta := 1, observedChange := false }
  | .error e =>
    { message := "Error navigating to " ++ u ++ ": " ++ e,
      countDelta := 0, observedChange := false }

/-- Embedding of `switch_tab` (state_manager.py:796-815): bounds check
on the tab index, then bring-to-front and title retrieval (one driver
outcome carrying the title), then the increment. -/
def switchTab (numPages : Nat) (bringAndTitle : Except String String)
    (tabIndex : Int) : ActionResult :=
  if ¬ (0 ≤ tabIndex ∧ tabIndex < (numPages : Int)) then
    { message := "Error: Invalid tab index " ++ toString tabIndex ++
        ". Available tabs: 0-" ++ toString ((numPages : Int) - 1),
      countDelta := 0, observedChange := false }
  else
    match bringAndTitle with
    | .error e =>
      { message := "Error switching to tab " ++ toString tabIndex ++ ": " ++ e,
        countDelta := 0, observedChange := false }
    | .ok title =>
      { message := "Successfully switched to tab " ++ toString tabIndex ++ ": " ++ title,
        countDelta := 1, observedChange := false }

/-- Embedding of `open_new_tab` (state_manager.py:817-842): one driver
outcome covers page creation, the optional navigation and
bring-to-front; `numPagesAfter` is the page count after creation. -/
def openNewTab (driverCall : Except String Unit) (numPagesAfter : Nat)
    (url : Option String) : ActionResult :=
  match driverCall with
  | .error e =>
    { message := "Error opening new tab: " ++ e, countDelta := 0, observedChange := false }
  | .ok _ =>
    let base := "new tab (index " ++ toString (numPagesAfter - 1) ++ ")"
    let info :=
      match url with
      | some u => base ++ " and navigated to " ++ normalizeUrl u
      | none => base
    { message := "Successfully opened " ++ info, countDelta := 1, observedChange := false }

/-- Embedding of `close_tab` (state_manager.py:844-880): refuse to close
the last tab; an explicit index is bounds-checked, a missing index means
the current tab; the driver outcome carries the closed tab title. -/
def closeTab (numPages currentIdx : Nat) (titleAndClose : Except String String)
    (tabIndex : Option Int) : ActionResult :=
  if numPages ≤ 1 then
    { message := "Error: Cannot close the last remaining tab.",
      countDelta := 0, observedChange := false }
  else
    match tabIndex with
    | none =>
      match titleAndClose with
      | .error e =>
        { message := "Error closing tab: " ++ e, countDelta := 0, observedChange := false }
      | .ok title =>
        { message := "Successfully closed tab " ++ toString currentIdx ++ ": " ++ title,
          countDelta := 1, observedChange := false }
    | some idx =>
      if ¬ (0 ≤ idx ∧ idx < (numPages : Int)) then
        { message := "Error: Invalid tab index " ++ toString idx ++
            ". Available tabs: 0-" ++ toString ((numPages : Int) - 1),
          countDelta := 0, observedChange := false }
      else
        match titleAndClose with
        | .error e =>
          { message := "Error closing tab: " ++ e, countDelta := 0, observedChange := false }
        | .ok title =>
          { message := "Successfully closed tab " ++ toString idx ++ ": " ++ title,
            countDelta := 1, observedChange := false }

/-- Target of a `scroll` call after Python parses the `target` string:
the literal "page", a string parsing as an element index, or a string
for which `int(target)` raises `ValueError`. -/
inductive ScrollTarget where
  | page
  | element (bboxId : Int)
  | invalid (raw : String)
  deriving Repr, DecidableEq

/-- Environment of one `scroll` invocation: driver outcomes of the
page-level scroll, `query_selector`, `bounding_box` (each either raising
or reporting whether a value was found) and the element-level scroll. -/
structure ScrollEnv where
  bboxes : List BBox
  pageScrollCall : Except String Unit
  queryCall : Except String Bool
  boxCall : Except String Bool
  elemScrollCall : Except String Unit
  deriving Repr

/-- Embedding of `scroll` (state_manager.py:468-513).  Note that inside
the element branch `_get_selector` raising on a CAPTCHA-marked box is
caught by the inner `except ValueError` (state_manager.py:501-502),
yielding the invalid-target message; the increment at
state_manager.py:504 runs only after either scroll succeeded. -/
def scroll (env : ScrollEnv) (target : ScrollTarget) (direction : String) : ActionResult :=
  let dir := pyLower direction
  if ¬ (dir = "up" ∨ dir = "down") then
    { message := "Error: Direction must be \x27up\x27 or \x27down\x27",
      countDelta := 0, observedChange := false }
  else
    match target with
    | .page =>
      match env.pageScrollCall with
      | .error e =>
        { message := "Error scrolling: " ++ e, countDelta := 0, observedChange := false }
      | .ok _ =>
        { message := "Successfully scrolled " ++ dir, countDelta := 1, observedChange := false }
    | .invalid raw =>
      { message := "Error: Invalid target \x27" ++ raw ++
          "\x27. Use \x27page\x27 or a bbox_id number",
        countDelta := 0, observedChange := false }
    | .element bboxId =>
      match getBBoxById env.bboxes bboxId with
      | none =>
        { message := "Error: Invalid bbox_id " ++ toString bboxId,
          countDelta := 0, observedChange := false }
      | some bbox =>
        if bbox.isCaptcha then
          { message := "Error: Invalid target \x27" ++ toString bboxId ++
              "\x27. Use \x27page\x27 or a bbox_id number",
            countDelta := 0, observedChange := false }
        else
          match env.queryCall with
          | .error e =>
            { message := "Error scrolling: " ++ e, countDelta := 0, observedChange := false }
          | .ok false =>
            { message := "Error: Element with bbox_id " ++ toString bboxId ++ " not found",
              countDelta := 0, observedChange := false }
          | .ok true =>
            match env.boxCall with
            | .error e =>
              { message := "Error scrolling: " ++ e, countDelta := 0, observedChange := false }
            | .ok false =>
              { message := "Error: Could not get bounding box for element " ++
                  toString bboxId,
                countDelta := 0, observedChange := false }
            | .ok true =>
              match env.elemScrollCall with
              | .error e =>
                { message := "Error scrolling: " ++ e, countDelta := 0, observedChange := false }
              | .ok _ =>
                { message := "Successfully scrolled " ++ dir,
                  countDelta := 1, observedChange := false }

/-- Embedding of `list_tabs` (state_manager.py:777-794): the driver
outcome carries the formatted per-tab lines; no branch calls
`increment_action_count`. -/
def listTabs (tabsCall : Except String (List String)) : ActionResult :=
  match tabsCall with
  | .error e =>
    { message := "Error listing tabs: " ++ e, countDelta := 0, observedChange := false }
  | .ok lines =>
    if lines.isEmpty then
      { message := "No tabs found.", countDelta := 0, observedChange := false }
    else
      { message := String.intercalate "\n" ("Available tabs:" :: lines),
        countDelta := 0, observedChange := false }

/-- Embedding of `extract_page_content` (state_manager.py:527-573): the
driver outcome carries URL, title and the markdown rendering; no branch
calls `increment_action_count`. -/
def extractPageContent (contentCall : Except String (String × String × String)) :
    ActionResult :=
  match contentCall with
  | .error e =>
    { message := "Error extracting page content: " ++ e,
      countDelta := 0, observedChange := false }
  | .ok (url, title, md) =>
    { message := "URL: " ++ url ++ "\nTitle: " ++ title ++ "\n\n" ++ md,
      countDelta := 0, observedChange := false }

/-- Embedding of `take_note` (state_manager.py:886-889): pure echo, no
increment. -/
def takeNote (note : String) : ActionResult :=
  { message := "Note recorded: " ++ note, countDelta := 0, observedChange := false }

/-! Generic lemmas about the two-stage execution discipline. -/

theorem twoStage_noEffect (before : PageState) (native fallback : Except String PageState)
    (a b c d : String)
    (hn : native = .ok before ∨ ∃ e, native = .error e)
    (hf : fallback = .ok before) :
    twoStage before native fallback a b c d =
      { message := c, countDelta := 0, observedChange := false } := by
  subst hf
  rcases hn with hn | ⟨e, hn⟩ <;> subst hn <;> simp [twoStage]

theorem twoStage_nativeChange (before s : PageState) (native fallback : Except String PageState)
    (a b c d : String) (hn : native = .ok s) (hne : s ≠ before) :
    twoStage before native fallback a b c d =
      { message := a, countDelta := 1, observedChange := true } := by
  subst hn
  simp [twoStage, hne]

theorem twoStage_fallbackChange (before s : PageState)
    (native fallback : Except String PageState) (a b c d : String)
    (hn : native = .ok before ∨ ∃ e, native = .error e)
    (hf : fallback = .ok s) (hne : s ≠ before) :
    twoStage before native fallback a b c d =
      { message := b, countDelta := 1, observedChange := true } := by
  subst hf
  rcases hn with hn | ⟨e, hn⟩ <;> subst hn <;> simp [twoStage, hne]

theorem twoStage_count_iff_observed (before : PageState)
    (native fallback : Except String PageState) (a b c d : String) :
    (twoStage before native fallback a b c d).countDelta = 1 ↔
      (twoStage before native fallback a b c d).observedChange = true := by
  cases native with
  | error e =>
    cases fallback with
    | error e2 => simp [twoStage]
    | ok s =>
      by_cases h : s = before <;> simp [twoStage, h]
  | ok s =>
    by_cases h : s = before
    · cases fallback with
      | error e2 => simp [twoStage, h]
      | ok s2 =>
        by_cases h2 : s2 = before <;> simp [twoStage, h, h2]
    · simp [twoStage, h]

/-- C1: for the two-stage actions (`click`, `type_text`,
`browser_select_option`), when neither stage changes the captured page
state triple — the native stage either re-measures an unchanged triple or
raises, and the human-like fallback re-measures an unchanged triple — the
action returns its failure string containing "had no effect on the page"
and does not increment the action count; when either stage measures a
changed triple, the action returns its success string and increments the
action count by exactly one. -/
theorem twoStage_actions_effect_detection (env : ActionEnv) (bboxId : Int)
    (txt valuesRepr : String) :
    ((nativeOutcome env bboxId = .ok env.before ∨
        (∃ e, nativeOutcome env bboxId = .error e)) →
      (fallbackOutcome env bboxId = .ok env.before →
        click env bboxId =
          { message := "Error: Clicking element " ++ toString bboxId ++
              " had no effect on the page.",
            countDelta := 0, observedChange := false } ∧
        typeText env bboxId txt =
          { message := "Error: Typing into element " ++ toString bboxId ++
              " had no effect on the page.",
            countDelta := 0, observedChange := false }) ∧
      (fallbackSelectOutcome env bboxId = .ok env.before →
        selectOption env bboxId valuesRepr =
          { message := "Error: Selecting in element " ++ toString bboxId ++
              " had no effect on the page.",
            countDelta := 0, observedChange := false })) ∧
    (∀ s, nativeOutcome env bboxId = .ok s → s ≠ env.before →
      click env bboxId =
        { message := "Successfully clicked element " ++ toString bboxId ++ ".",
          countDelta := 1, observedChange := true } ∧
      typeText env bboxId txt =
        { message := "Successfully typed \x27" ++ txt ++ "\x27 into element " ++
            toString bboxId ++ ".",
          countDelta := 1, observedChange := true } ∧
      selectOption env bboxId valuesRepr =
        { message := "Successfully selected " ++ valuesRepr ++ " in element " ++
            toString bboxId ++ ".",
          countDelta := 1, observedChange := true }) ∧
    ((nativeOutcome env bboxId = .ok env.before ∨
        (∃ e, nativeOutcome env bboxId = .error e)) →
      (∀ s, fallbackOutcome env bboxId = .ok s → s ≠ env.before →
        click env bboxId =
          { message := "Successfully clicked element " ++ toString bboxId ++
              " using fallback.",
            countDelta := 1, observedChange := true } ∧
        typeText env bboxId txt =
          { message := "Successfully typed \x27" ++ txt ++ "\x27 into element " ++
              toString bboxId ++ " using fallback.",
            countDelta := 1, observedChange := true }) ∧
      (∀ s, fallbackSelectOutcome env bboxId = .ok s → s ≠ env.before →
        selectOption env bboxId valuesRepr =
          { message := "Successfully selected " ++ valuesRepr ++ " in element " ++
              toString bboxId ++ " using fallback.",
            countDelta := 1, observedChange := true })) := by
  refine ⟨fun hn => ⟨fun hf => ⟨?_, ?_⟩, fun hf => ?_⟩, fun s hn hne => ⟨?_, ?_, ?_⟩,
    fun hn => ⟨fun s hf hne => ⟨?_, ?_⟩, fun s hf hne => ?_⟩⟩
  · exact twoStage_noEffect _ _ _ _ _ _ _ hn hf
  · exact twoStage_noEffect _ _ _ _ _ _ _ hn hf
  · exact twoStage_noEffect _ _ _ _ _ _ _ hn hf
  · exact twoStage_nativeChange _ _ _ _ _ _ _ _ hn hne
  · exact twoStage_nativeChange _ _ _ _ _ _ _ _ hn hne
  · exact twoStage_nativeChange _ _ _ _ _ _ _ _ hn hne
  · exact twoStage_fallbackChange _ _ _ _ _ _ _ _ hn hf hne
  · exact twoStage_fallbackChange _ _ _ _ _ _ _ _ hn hf hne
  · exact twoStage_fallbackChange _ _ _ _ _ _ _ _ hn hf hne

/-- Sample page states used by the concrete witnesses. -/
def psBefore : PageState := { url := "https://a.test", domHash := "h0", numTabs := 1 }

/-- Sample changed page state used by the concrete witnesses. -/
def psAfter : PageState := { url := "https://a.test", domHash := "h1", numTabs := 1 }

/-- Sample environment: a single ordinary element, both stages complete
and re-measure an unchanged page state. -/
def envNoEffect : ActionEnv :=
  { bboxes := [{ isCaptcha := false, selector := some "#btn" }],
    before := psBefore, native := .ok psBefore, fallbackHuman := .ok psBefore }

/-- Witness for the C1 theorem at a concrete environment where both
stages re-measure an unchanged page state. -/
theorem twoStage_actions_effect_detection_witness :
    click envNoEffect 0 =
      { message := "Error: Clicking element 0 had no effect on the page.",
        countDelta := 0, observedChange := false } := by
  have h := (twoStage_actions_effect_detection envNoEffect 0 "x" "[]").1
  exact ((h (Or.inl rfl)).1 rfl).1

/-- Counterexample to C2 at a concrete input: a successful `hover` on an
ordinary element increments the action count although the code captured
no page state and hence observed no state change — refuting "for every
action, `action_count` increments iff a state change was observed". -/
theorem hover_increments_without_observed_change :
    hover [{ isCaptcha := false, selector := some "#btn" }] (.ok ()) 0 =
      { message := "Hovered over element 0.", countDelta := 1, observedChange := false } ∧
    ¬ ((hover [{ isCaptcha := false, selector := some "#btn" }] (.ok ()) 0).countDelta = 1 ↔
       (hover [{ isCaptcha := false, selector := some "#btn" }] (.ok ()) 0).observedChange = true) := by
  exact ⟨by decide, by decide⟩

theorem applyCounts_le (start : Nat) (rs : List ActionResult) :
    start ≤ applyCounts start rs := by
  induction rs generalizing start with
  | nil => simp [applyCounts]
  | cons r rest ih =>
    have h2 := ih (start + r.countDelta)
    calc start ≤ start + r.countDelta := Nat.le_add_right _ _
      _ ≤ applyCounts (start + r.countDelta) rest := h2
      _ = applyCounts start (r :: rest) := by simp [applyCounts]

theorem hover_count (bboxes : List BBox) (call : Except String Unit) (bboxId : Int) :
    (hover bboxes call bboxId).observedChange = false ∧
    ((hover bboxes call bboxId).countDelta = 1 ↔
      (∃ sel, getSelector bboxes bboxId = .ok sel) ∧ call = .ok ()) := by
  cases hsel : getSelector bboxes bboxId with
  | error e =>
    constructor
    · simp [hover, hsel]
    · simp only [hover, hsel]
      constructor
      · intro h; exact absurd h (by simp)
      · rintro ⟨⟨sel, hs⟩, -⟩; exact absurd hs (by simp)
  | ok sel =>
    cases call with
    | error e2 =>
      constructor
      · simp [hover, hsel]
      · simp only [hover, hsel]
        constructor
        · intro h; exact absurd h (by simp)
        · rintro ⟨-, hc⟩; exact absurd hc (by simp)
    | ok u =>
      cases u
      simp [hover, hsel]

theorem pressKey_count (call : Except String Unit) (key : String) :
    (pressKey call key).observedChange = false ∧
    ((pressKey call key).countDelta = 1 ↔ call = .ok ()) := by
  cases call with
  | error e => simp [pressKey]
  | ok u => cases u; simp [pressKey]

theorem drag_count (bboxes : List BBox) (call : Except String Unit) (startId endId : Int) :
    (drag bboxes call startId endId).observedChange = false ∧
    ((drag bboxes call startId endId).countDelta = 1 ↔
      (∃ s, getSelector bboxes startId = .ok s) ∧
      (∃ s, getSelector bboxes endId = .ok s) ∧ call = .ok ()) := by
  cases h1 : getSelector bboxes startId with
  | error e1 => simp [drag, h1]
  | ok s1 =>
    cases h2 : getSelector bboxes endId with
    | error e2 => simp [drag, h1, h2]
    | ok s2 =>
      cases call with
      | error e3 => simp [drag, h1, h2]
      | ok u => cases u; simp [drag, h1, h2]

theorem refresh_count (call : Except String Unit) :
    (refresh call).observedChange = false ∧
    ((refresh call).countDelta = 1 ↔ call = .ok ()) := by
  cases call with
  | error e => simp [refresh]
  | ok u => cases u; simp [refresh]

theorem goBack_count (call : Except String Unit) :
    (goBack call).observedChange = false ∧
    ((goBack call).countDelta = 1 ↔ call = .ok ()) := by
  cases call with
  | error e => simp [goBack]
  | ok u => cases u; simp [goBack]

theorem goForward_count (call : Except String Unit) :
    (goForward call).observedChange = false ∧
    ((goForward call).countDelta = 1 ↔ call = .ok ()) := by
  cases call with
  | error e => simp [goForward]
  | ok u => cases u; simp [goForward]

theorem browserGoto_count (call : Except String Unit) (url : String) :
    (browserGoto call url).observedChange = false ∧
    ((browserGoto call url).countDelta = 1 ↔ call = .ok ()) := by
  cases call with
  | error e => simp [browserGoto]
  | ok u => cases u; simp [browserGoto]

theorem switchTab_count (numPages : Nat) (call : Except String String) (tabIndex : Int) :
    (switchTab numPages call tabIndex).observedChange = false ∧
    ((switchTab numPages call tabIndex).countDelta = 1 ↔
      (0 ≤ tabIndex ∧ tabIndex < (numPages : Int)) ∧ ∃ t, call = .ok t) := by
  by_cases hb : 0 ≤ tabIndex ∧ tabIndex < (numPages : Int)
  · cases call with
    | error e => simp [switchTab, hb]
    | ok t => simp [switchTab, hb]
  · simp [switchTab, hb]

theorem openNewTab_count (call : Except String Unit) (numPagesAfter : Nat)
    (url : Option String) :
    (openNewTab call numPagesAfter url).observedChange = false ∧
    ((openNewTab call numPagesAfter url).countDelta = 1 ↔ call = .ok ()) := by
  cases call with
  | error e => simp [openNewTab]
  | ok u => cases u; simp [openNewTab]

theorem closeTab_count (numPages currentIdx : Nat) (call : Except String String)
    (tabIndex : Option Int) :
    (closeTab numPages currentIdx call tabIndex).observedChange = false ∧
    ((closeTab numPages currentIdx call tabIndex).countDelta = 1 ↔
      1 < numPages ∧ (∀ i, tabIndex = some i → 0 ≤ i ∧ i < (numPages : Int)) ∧
        ∃ t, call = .ok t) := by
  by_cases hp : numPages ≤ 1
  · constructor
    · simp [closeTab, hp]
    · constructor
      · intro h
        simp [closeTab, hp] at h
      · rintro ⟨h1, -⟩
        omega
  · cases tabIndex with
    | none =>
      cases call with
      | error e =>
        constructor
        · simp [closeTab, hp]
        · constructor
          · intro h
            simp [closeTab, hp] at h
          · rintro ⟨-, -, t, ht⟩
            exact Except.noConfusion ht
      | ok t =>
        constructor
        · simp [closeTab, hp]
        · constructor
          · intro _
            exact ⟨by omega, by rintro i hi; exact Option.noConfusion hi, ⟨t, rfl⟩⟩
          · intro _
            simp [closeTab, hp]
    | some i =>
      by_cases hb : 0 ≤ i ∧ i < (numPages : Int)
      · cases call with
        | error e =>
          constructor
          · simp [closeTab, hp, hb]
          · constructor
            · intro h
              simp [closeTab, hp, hb] at h
            · rintro ⟨-, -, t, ht⟩
              exact Except.noConfusion ht
        | ok t =>
          constructor
          · simp [closeTab, hp, hb]
          · constructor
            · intro _
              refine ⟨by omega, ?_, ⟨t, rfl⟩⟩
              rintro j hj
              cases hj
              exact hb
            · intro _
              simp [closeTab, hp, hb]
      · constructor
        · simp [closeTab, hp, hb]
        · constructor
          · intro h
            simp [closeTab, hp, hb] at h
          · rintro ⟨-, hall, -⟩
            exact absurd (hall i rfl) hb

theorem scroll_count (env : ScrollEnv) (target : ScrollTarget) (direction : String) :
    (scroll env target direction).observedChange = false ∧
    ((scroll env target direction).countDelta = 1 ↔
      (pyLower direction = "up" ∨ pyLower direction = "down") ∧
      ((target = .page ∧ env.pageScrollCall = .ok ()) ∨
       (∃ bboxId bbox, target = .element bboxId ∧
         getBBoxById env.bboxes bboxId = some bbox ∧ bbox.isCaptcha = false ∧
         env.queryCall = .ok true ∧ env.boxCall = .ok true ∧
         env.elemScrollCall = .ok ()))) := by
  by_cases hdir : pyLower direction = "up" ∨ pyLower direction = "down"
  · cases target with
    | page =>
      cases hc : env.pageScrollCall with
      | error e => simp [scroll, hdir, hc]
      | ok u => cases u; simp [scroll, hdir, hc]
    | invalid raw => simp [scroll, hdir]
    | element bboxId =>
      cases hb : getBBoxById env.bboxes bboxId with
      | none => simp [scroll, hdir, hb]
      | some bbox =>
        by_cases hcap : bbox.isCaptcha
        · simp [scroll, hdir, hb, hcap]
        · cases hq : env.queryCall with
          | error e => simp [scroll, hdir, hb, hcap, hq]
          | ok qb =>
            cases qb with
            | false => simp [scroll, hdir, hb, hcap, hq]
            | true =>
              cases hx : env.boxCall with
              | error e => simp [scroll, hdir, hb, hcap, hq, hx]
              | ok xb =>
                cases xb with
                | false => simp [scroll, hdir, hb, hcap, hq, hx]
                | true =>
                  cases hs : env.elemScrollCall with
                  | error e => simp [scroll, hdir, hb, hcap, hq, hx, hs]
                  | ok u => cases u; simp [scroll, hdir, hb, hcap, hq, hx, hs]
  · simp [scroll, hdir]

theorem listTabs_delta (tabsCall : Except String (List String)) :
    (listTabs tabsCall).countDelta = 0 := by
  cases tabsCall with
  | error e => rfl
  | ok lines => by_cases h : lines.isEmpty <;> simp [listTabs, h]

theorem extractPageContent_delta (contentCall : Except String (String × String × String)) :
    (extractPageContent contentCall).countDelta = 0 := by
  cases contentCall with
  | error e => rfl
  | ok v =>
    obtain ⟨u, t, m⟩ := v
    rfl

theorem waitFor_delta (env : WaitEnv) (time : Option ℚ) (bboxId : Option Int)
    (state : String) : (waitFor env time bboxId state).countDelta = 0 := by
  unfold waitFor
  repeat' split
  all_goals rfl

/-- C2 (amended): the action count is monotonically non-decreasing over
any sequence of actions; the two-stage actions (`click`, `type_text`,
`browser_select_option`) increment exactly when a page-state change was
observed; the remaining interacting actions capture no page state
(`observedChange` is false in every branch) and increment exactly when
the action completed without error — `hover`, `press_key`, `drag`,
`scroll`, `refresh`, `go_back`, `go_forward`, `browser_goto`,
`switch_tab`, `open_new_tab` and `close_tab`, each with its precise
success condition; and the read-only tools (`list_tabs`,
`extract_page_content`, `take_note`, `wait_for`) never increment. -/
theorem action_count_monotone_and_increment_semantics :
    (∀ (start : Nat) (rs : List ActionResult), start ≤ applyCounts start rs) ∧
    (∀ (env : ActionEnv) (bboxId : Int) (txt valuesRepr : String),
      ((click env bboxId).countDelta = 1 ↔ (click env bboxId).observedChange = true) ∧
      ((typeText env bboxId txt).countDelta = 1 ↔
        (typeText env bboxId txt).observedChange = true) ∧
      ((selectOption env bboxId valuesRepr).countDelta = 1 ↔
        (selectOption env bboxId valuesRepr).observedChange = true)) ∧
    (∀ (bboxes : List BBox) (call : Except String Unit) (bboxId : Int),
      (hover bboxes call bboxId).observedChange = false ∧
      ((hover bboxes call bboxId).countDelta = 1 ↔
        (∃ sel, getSelector bboxes bboxId = .ok sel) ∧ call = .ok ())) ∧
    (∀ (call : Except String Unit) (key : String),
      (pressKey call key).observedChange = false ∧
      ((pressKey call key).countDelta = 1 ↔ call = .ok ())) ∧
    (∀ (bboxes : List BBox) (call : Except String Unit) (startId endId : Int),
      (drag bboxes call startId endId).observedChange = false ∧
      ((drag bboxes call startId endId).countDelta = 1 ↔
        (∃ s, getSelector bboxes startId = .ok s) ∧
        (∃ s, getSelector bboxes endId = .ok s) ∧ call = .ok ())) ∧
    (∀ (env : ScrollEnv) (target : ScrollTarget) (direction : String),
      (scroll env target direction).observedChange = false ∧
      ((scroll env target direction).countDelta = 1 ↔
        (pyLower direction = "up" ∨ pyLower direction = "down") ∧
        ((target = .page ∧ env.pageScrollCall = .ok ()) ∨
         (∃ bboxId bbox, target = .element bboxId ∧
           getBBoxById env.bboxes bboxId = some bbox ∧ bbox.isCaptcha = false ∧
           env.queryCall = .ok true ∧ env.boxCall = .ok true ∧
           env.elemScrollCall = .ok ())))) ∧
    (∀ call : Except String Unit,
      ((refresh call).observedChange = false ∧
        ((refresh call).countDelta = 1 ↔ call = .ok ())) ∧
      ((goBack call).observedChange = false ∧
        ((goBack call).countDelta = 1 ↔ call = .ok ())) ∧
      ((goForward call).observedChange = false ∧
        ((goForward call).countDelta = 1 ↔ call = .ok ()))) ∧
    (∀ (call : Except String Unit) (url : String),
      (browserGoto call url).observedChange = false ∧
      ((browserGoto call url).countDelta = 1 ↔ call = .ok ())) ∧
    (∀ (numPages : Nat) (call : Except String String) (tabIndex : Int),
      (switchTab numPages call tabIndex).observedChange = false ∧
      ((switchTab numPages call tabIndex).countDelta = 1 ↔
        (0 ≤ tabIndex ∧ tabIndex < (numPages : Int)) ∧ ∃ t, call = .ok t)) ∧
    (∀ (call : Except String Unit) (numPagesAfter : Nat) (url : Option String),
      (openNewTab call numPagesAfter url).observedChange = false ∧
      ((openNewTab call numPagesAfter url).countDelta = 1 ↔ call = .ok ())) ∧
    (∀ (numPages currentIdx : Nat) (call : Except String String) (tabIndex : Option Int),
      (closeTab numPages currentIdx call tabIndex).observedChange = false ∧
      ((closeTab numPages currentIdx call tabIndex).countDelta = 1 ↔
        1 < numPages ∧ (∀ i, tabIndex = some i → 0 ≤ i ∧ i < (numPages : Int)) ∧
          ∃ t, call = .ok t)) ∧
    (∀ (tabsCall : Except String (List String)), (listTabs tabsCall).countDelta = 0) ∧
    (∀ (contentCall : Except String (String × String × String)),
      (extractPageContent contentCall).countDelta = 0) ∧
    (∀ note : String, (takeNote note).countDelta = 0) ∧
    (∀ (wenv : WaitEnv) (wtime : Option ℚ) (wb : Option Int) (wstate : String),
      (waitFor wenv wtime wb wstate).countDelta = 0) := by
  refine ⟨applyCounts_le,
    fun env bboxId txt valuesRepr =>
      ⟨twoStage_count_iff_observed _ _ _ _ _ _ _,
       twoStage_count_iff_observed _ _ _ _ _ _ _,
       twoStage_count_iff_observed _ _ _ _ _ _ _⟩,
    hover_count, pressKey_count, drag_count, scroll_count,
    fun call => ⟨refresh_count call, goBack_count call, goForward_count call⟩,
    browserGoto_count, switchTab_count, openNewTab_count, closeTab_count,
    listTabs_delta, extractPageContent_delta, fun note => rfl, waitFor_delta⟩

/-- Witness for the amended C2 theorem at concrete inputs. -/
theorem action_count_monotone_witness :
    (3 : Nat) ≤ applyCounts 3 [{ message := "m", countDelta := 1, observedChange := false }] ∧
    ((click envNoEffect 0).countDelta = 1 ↔ (click envNoEffect 0).observedChange = true) ∧
    ((pressKey (.ok ()) "Enter").countDelta = 1 ↔
      (.ok () : Except String Unit) = .ok ()) ∧
    (listTabs (.ok ["0: tab"])).countDelta = 0 := by
  obtain ⟨hmono, hts, hhov, hpk, hdrag, hscr, hnav, hgoto, hst, hont, hct, hlt, hepc,
    htn, hwf⟩ := action_count_monotone_and_increment_semantics
  exact ⟨hmono 3 _, (hts envNoEffect 0 "x" "[]").1, (hpk (.ok ()) "Enter").2,
    hlt (.ok ["0: tab"])⟩

/-- Bounding boxes of the C3 failing input: a single element flagged as a
CAPTCHA. -/
def captchaBBoxes : List BBox := [{ isCaptcha := true, selector := some "#captcha" }]

/-- Failing input for C3: a click on a CAPTCHA-flagged element whose
human-like fallback mouse click changes the page state. -/
def captchaClickEnv : ActionEnv :=
  { bboxes := captchaBBoxes, before := psBefore,
    native := .ok psBefore, fallbackHuman := .ok psAfter }

/-- C3 evaluated at the failing input: selector resolution refuses the
CAPTCHA element (so the native stage raises), but the human-like
fallbacks of `click` and `type_text` resolve the box directly
(state_manager.py:256-297), interact with it by mouse coordinates, and on
a measured state change report success and increment the action count —
contradicting the claimed refusal.  By contrast `browser_select_option`
(whose fallback resolves the selector, state_manager.py:305) and `hover`
do refuse the same element with an error string. -/
theorem captcha_fallback_interaction :
    getSelector captchaBBoxes 0 = .error (captchaMsg 0) ∧
    click captchaClickEnv 0 =
      { message := "Successfully clicked element 0 using fallback.",
        countDelta := 1, observedChange := true } ∧
    typeText captchaClickEnv 0 "hi" =
      { message := "Successfully typed \x27hi\x27 into element 0 using fallback.",
        countDelta := 1, observedChange := true } ∧
    selectOption captchaClickEnv 0 "[]" =
      { message := "Error: All select attempts failed for element 0. Last error: " ++
          captchaMsg 0,
        countDelta := 0, observedChange := false } ∧
    hover captchaBBoxes (.ok ()) 0 =
      { message := "Error hovering over element 0: " ++ captchaMsg 0,
        countDelta := 0, observedChange := false } := by
  refine ⟨rfl, by decide, by decide, by decide, by decide⟩

/-! Delegation lemmas. -/

theorem runSingleTask_entry_task (pd : Nat) (m : Int) (t : String) (env : TaskEnv) :
    (runSingleTask pd m t env).entry.task = t := by
  unfold runSingleTask
  repeat' split <;> try rfl

theorem runSingleTask_spawnedDepth (pd : Nat) (m : Int) (t : String) (env : TaskEnv) :
    (runSingleTask pd m t env).spawnedDepth = none ∨
    (runSingleTask pd m t env).spawnedDepth = some (pd + 1) := by
  unfold runSingleTask
  repeat' split
  all_goals first
    | exact Or.inl rfl
    | exact Or.inr rfl

theorem delegate_traces_shape (depth : Nat) (tasks : List (String × TaskEnv)) :
    (delegate depth tasks).traces = [] ∨
    (delegate depth tasks).traces =
      tasks.map fun p => runSingleTask depth MAX_KAGEBUNSHIN_INSTANCES p.1 p.2 := by
  unfold delegate
  split
  · exact Or.inl rfl
  · split
    · exact Or.inl rfl
    · exact Or.inr rfl

/-- C4: a `delegate` call (with a non-empty task list) made at a clone
depth that has reached the cap (the hardcoded literal 3) fails whole with
the single structured error whose payload starts with
"Maximum clone depth", and no task is run — no clone agent and no browser
context is created; below the cap, every clone that is spawned carries
`clone_depth` equal to the parent depth plus one. -/
theorem delegate_depth_guard (depth : Nat) (tasks : List (String × TaskEnv)) :
    (tasks ≠ [] → MAX_CLONE_DEPTH ≤ depth →
      (delegate depth tasks).result = .error (depthErrMsg depth) ∧
      (delegate depth tasks).traces = []) ∧
    (depth + 1 ≤ MAX_CLONE_DEPTH →
      ∀ tr ∈ (delegate depth tasks).traces, ∀ d, tr.spawnedDepth = some d →
        d = depth + 1) := by
  constructor
  · intro hne hdepth
    have hne2 : tasks.isEmpty = false := by
      cases tasks with
      | nil => exact absurd rfl hne
      | cons a l => rfl
    constructor <;> simp [delegate, hne2, hdepth]
  · intro _ tr htr d hd
    rcases delegate_traces_shape depth tasks with hsh | hsh
    · rw [hsh] at htr
      exact absurd htr (List.not_mem_nil tr)
    · rw [hsh] at htr
      rcases List.mem_map.mp htr with ⟨p, _, hp⟩

      rcases runSingleTask_spawnedDepth depth MAX_KAGEBUNSHIN_INSTANCES p.1 p.2 with h0 | h0 <;>
        rw [← hp, h0] at hd
      · exact absurd hd (by simp)
      · exact (Option.some.injEq _ _ ▸ hd).symm ▸ rfl

/-- Sample per-task environment in which every step succeeds. -/
def taskEnvOk : TaskEnv :=
  { liveAtPrecheck := 1, browserAvailable := true, newContextCall := .ok (),
    liveAtCreate := 1, runCall := .ok "done" }

/-- Witness for the C4 theorem at concrete inputs: depth 3 is refused
with the structured depth error, and a clone spawned at depth 0 carries
depth 1. -/
theorem delegate_depth_guard_witness :
    (delegate 3 [("t", taskEnvOk)]).result = .error (depthErrMsg 3) ∧
    (∀ tr ∈ (delegate 0 [("t", taskEnvOk)]).traces, ∀ d, tr.spawnedDepth = some d →
      d = 0 + 1) := by
  exact ⟨((delegate_depth_guard 3 [("t", taskEnvOk)]).1 (by simp) (by decide)).1,
    (delegate_depth_guard 0 [("t", taskEnvOk)]).2 (by decide)⟩

/-- C5: a subtask whose best-effort pre-check reads a live-agent count at
or above the cap yields a denied entry whose error mentions
"max agents reached" and spawns nothing; and a subtask whose pre-check
passes but whose agent creation finds the cap reached is answered by the
creation refusal (`RuntimeError`) turned into a denied entry, again
spawning nothing.  `runSingleTask` is a total function: no branch throws
out of the tool. -/
theorem run_single_task_capacity_denial (pd : Nat) (m : Int) (task : String)
    (env : TaskEnv) :
    (env.liveAtPrecheck ≥ m →
      (runSingleTask pd m task env).entry =
        { task := task, status := .denied,
          payload := "Delegation denied: max agents reached (" ++ toString m ++ ")." } ∧
      (runSingleTask pd m task env).spawnedDepth = none) ∧
    (env.liveAtPrecheck < m → env.browserAvailable = true →
      env.newContextCall = .ok () → env.liveAtCreate ≥ m →
      (runSingleTask pd m task env).entry.status = .denied ∧
      (runSingleTask pd m task env).entry.payload =
        "Delegation denied: " ++ instanceLimitMsg m ∧
      (runSingleTask pd m task env).spawnedDepth = none) := by
  constructor
  · intro h
    constructor <;> simp [runSingleTask, h]
  · intro h1 h2 h3 h4
    refine ⟨?_, ?_, ?_⟩ <;>
      simp [runSingleTask, createAgent, not_le.mpr h1, h2, h3, h4]

/-- Sample per-task environment whose pre-check already sees the counter
at the cap. -/
def taskEnvAtCap : TaskEnv :=
  { liveAtPrecheck := 5, browserAvailable := true, newContextCall := .ok (),
    liveAtCreate := 5, runCall := .ok "done" }

/-- Sample per-task environment whose pre-check passes but whose creation
re-check sees the counter at the cap. -/
def taskEnvLateCap : TaskEnv :=
  { liveAtPrecheck := 4, browserAvailable := true, newContextCall := .ok (),
    liveAtCreate := 5, runCall := .ok "done" }

/-- Witness for the C5 theorem at concrete inputs: denial at the
pre-check and denial at creation time. -/
theorem run_single_task_capacity_denial_witness :
    (runSingleTask 0 5 "t" taskEnvAtCap).entry =
      { task := "t", status := .denied,
        payload := "Delegation denied: max agents reached (" ++ toString (5 : Int) ++ ")." } ∧
    (runSingleTask 0 5 "u" taskEnvLateCap).entry.status = .denied := by
  exact ⟨((run_single_task_capacity_denial 0 5 "t" taskEnvAtCap).1 (by decide)).1,
    ((run_single_task_capacity_denial 0 5 "u" taskEnvLateCap).2 (by decide) rfl rfl
      (by decide)).1⟩

theorem traces_task_names (depth : Nat) (m : Int) (l : List (String × TaskEnv)) :
    ((l.map fun p => runSingleTask depth m p.1 p.2).map TaskTrace.entry).map Entry.task =
      l.map Prod.fst := by
  induction l with
  | nil => rfl
  | cons p rest ih => simp [runSingleTask_entry_task, ih]

/-- C6: `delegate` on an empty task list returns the invalid-argument
error instead of an array; on a non-empty list (when the depth
precondition of the call passes) it returns an array with exactly one
entry per task, in input order (the entry list projected to its `task`
fields equals the input task list), each entry carrying one of the three
statuses; the per-task function is total, so no individual failure can
fail the whole call. -/
theorem delegate_aggregation (depth : Nat) (tasks : List (String × TaskEnv)) :
    (delegate depth []).result = .error emptyTasksMsg ∧
    (tasks ≠ [] → depth < MAX_CLONE_DEPTH →
      ∃ entries, (delegate depth tasks).result = .ok entries ∧
        entries.map Entry.task = tasks.map Prod.fst ∧
        ∀ en ∈ entries, en.status = .ok ∨ en.status = .denied ∨ en.status = .error) := by
  constructor
  · rfl
  · intro hne hd
    have hne2 : tasks.isEmpty = false := by
      cases tasks with
      | nil => exact absurd rfl hne
      | cons a l => rfl
    have hcond : ¬ depth ≥ MAX_CLONE_DEPTH := not_le.mpr hd
    refine ⟨(tasks.map fun p =>
      runSingleTask depth MAX_KAGEBUNSHIN_INSTANCES p.1 p.2).map TaskTrace.entry,
      ?_, traces_task_names _ _ _, ?_⟩
    · simp [delegate, hne2, hcond]
    · intro en _
      rcases en with ⟨t, s, pl⟩
      cases s
      · exact Or.inl rfl
      · exact Or.inr (Or.inl rfl)
      · exact Or.inr (Or.inr rfl)

/-- Witness for the C6 theorem at a concrete two-task call (one task
succeeding, one denied at the cap). -/
theorem delegate_aggregation_witness :
    ∃ entries,
      (delegate 0 [("a", taskEnvOk), ("b", taskEnvAtCap)]).result = .ok entries ∧
      entries.map Entry.task = ["a", "b"] ∧
      ∀ en ∈ entries, en.status = .ok ∨ en.status = .denied ∨ en.status = .error := by
  have h := (delegate_aggregation 0 [("a", taskEnvOk), ("b", taskEnvAtCap)]).2
    (by simp) (by decide)
  simpa using h

/-! Reason/act loop theorems. -/

/-- Policy that always issues a tool call; drives the graph into its
recursion limit. -/
def alwaysToolPolicy : Nat → LoopStep :=
  fun _ => { content := "working", hasToolCalls := true, toolResult := "result" }

/-- Counterexample to C7 at a concrete input: the recursion limit that
`ainvoke` passes to the graph is 100, not 150; and a run that exhausts it
propagates `GraphRecursionError` (no string — neither the last assistant
text nor a sentinel — is returned). -/
theorem recursion_cap_counterexample :
    RECURSION_LIMIT_PASSED ≠ 150 ∧
    ainvokeModel alwaysToolPolicy "query" = .error () := by
  exact ⟨by decide, rfl⟩

theorem extractFinalAnswer_sentinel_of_none (msgs : List String)
    (h : ∀ c ∈ msgs, hasFinalMarker c = false ∧ qualifiesFallback c = false) :
    extractFinalAnswer msgs = noAnswerSentinel := by
  have h1 : msgs.reverse.find? hasFinalMarker = none := by
    rw [List.find?_eq_none]
    intro c hc
    simp [(h c (List.mem_reverse.mp hc)).1]
  have h2 : msgs.reverse.find? qualifiesFallback = none := by
    rw [List.find?_eq_none]
    intro c hc
    simp [(h c (List.mem_reverse.mp hc)).2]
  simp [extractFinalAnswer, h1, h2]

/-- C7 (amended): `ainvoke` runs the graph under a hard recursion limit
of 100 supersteps; when the graph completes (the assistant emits no tool
calls), `ainvoke` returns the extracted final answer of the final message
list; when the limit is exhausted the error propagates and no answer is
returned; and whenever no message matches either extraction scan, the
extracted answer is the sentinel
"Task completed, but no specific answer was provided." (which contains
"no specific answer was provided"). -/
theorem ainvoke_recursion_cap_and_sentinel (policy : Nat → LoopStep) (q : String) :
    RECURSION_LIMIT_PASSED = 100 ∧
    (∀ m, runGraph policy RECURSION_LIMIT_PASSED 0 [q] = .ok m →
      ainvokeModel policy q = .ok (extractFinalAnswer m)) ∧
    (runGraph policy RECURSION_LIMIT_PASSED 0 [q] = .error () →
      ainvokeModel policy q = .error ()) ∧
    (∀ msgs : List String,
      (∀ c ∈ msgs, hasFinalMarker c = false ∧ qualifiesFallback c = false) →
      extractFinalAnswer msgs = noAnswerSentinel) := by
  refine ⟨rfl, ?_, ?_, fun msgs h => extractFinalAnswer_sentinel_of_none msgs h⟩
  · intro m hm
    simp [ainvokeModel, hm]
  · intro hm
    simp [ainvokeModel, hm]

/-- Policy that answers immediately with a final-answer marker and no
tool calls. -/
def answerNowPolicy : Nat → LoopStep :=
  fun _ => { content := "[FINAL ANSWER] The title is Example Domain.",
             hasToolCalls := false, toolResult := "" }

/-- Witness for the amended C7 theorem at concrete inputs: a run that
completes returns the extracted answer, and a message list with no
qualifying content extracts to the sentinel. -/
theorem ainvoke_recursion_cap_witness :
    ainvokeModel answerNowPolicy "q" =
      .ok (extractFinalAnswer ["q", "[FINAL ANSWER] The title is Example Domain."]) ∧
    extractFinalAnswer ["[tool]", "ok"] = noAnswerSentinel := by
  exact ⟨(ainvoke_recursion_cap_and_sentinel answerNowPolicy "q").2.1 _ rfl,
    (ainvoke_recursion_cap_and_sentinel answerNowPolicy "q").2.2.2 _ (by decide)⟩

/-! Observation builder theorems. -/

/-- Predicate: the call takes the HTML annotation path (the served
content is unreadable, which `annotate_page` catches, or readable
without a PDF marker). -/
def takesHtmlPath (env : PageEnv) : Prop :=
  ∀ c, env.content = .ok c → detectsPdf c = false

theorem annotatePage_html (env : PageEnv) (h : takesHtmlPath env) :
    annotatePage env = annotateHtmlPage env := by
  unfold annotatePage
  cases hc : env.content with
  | error e => rfl
  | ok c => simp [h c hc]

/-- C8: the observation builder is total — it is modelled as a plain
function into `Annotation` because every exception in `annotate_page`,
`_annotate_html_page` and `_annotate_pdf_page` is caught — and it
degrades rather than throws: when neither the network-idle wait (3 s)
nor the load wait (5 s) succeeds it returns an annotation with an empty
element list whose markdown describes the load failure; when a later
annotation step (script injection, screenshot) raises it returns an
annotation with an empty element list whose markdown describes that
failure; the PDF path degrades likewise; and every degraded annotation
has an empty element list. -/
theorem annotate_page_total_and_degrades (env : PageEnv) :
    (takesHtmlPath env → env.waitNetworkIdle = false → env.waitLoad = false →
      annotatePage env =
        degradedObs ("Failed to stabilize page load. Error: " ++ env.loadErr) ∧
      (annotatePage env).bboxes = []) ∧
    (takesHtmlPath env → (env.waitNetworkIdle = true ∨ env.waitLoad = true) →
      (∀ e, env.evalInject = .error e →
        annotatePage env = degradedObs ("Failed to annotate page. Error: " ++ e)) ∧
      (∀ e, env.evalInject = .ok () → env.screenshotCall = .error e →
        annotatePage env = degradedObs ("Failed to annotate page. Error: " ++ e))) ∧
    (∀ c, env.content = .ok c → detectsPdf c = true →
      ∀ e, env.pdfFetchParse = .error e →
        annotatePage env =
          degradedObs ("Failed to extract text from PDF at " ++ env.url ++
            ". Error: " ++ e)) ∧
    (∀ md, (degradedObs md).bboxes = []) := by
  refine ⟨?_, ?_, ?_, fun md => rfl⟩
  · intro h h1 h2
    rw [annotatePage_html env h]
    constructor <;> simp [annotateHtmlPage, degradedObs, h1, h2]
  · intro h hw
    rw [annotatePage_html env h]
    constructor
    · intro e he
      rcases hw with hw | hw <;> simp [annotateHtmlPage, hw, he]
    · intro e heval hshot
      rcases hw with hw | hw <;> simp [annotateHtmlPage, hw, heval, hshot]
  · intro c hc hd e he
    unfold annotatePage
    simp [hc, hd, annotatePdfPage, he]

/-- Sample environment: the served content is unreadable and both load
waits time out. -/
def degradedEnv : PageEnv :=
  { url := "https://a.test", content := .error "boom", pdfFetchParse := .error "x",
    pdfShot := .error "x", waitNetworkIdle := false, waitLoad := false,
    loadErr := "Timeout 5000ms exceeded.", evalInject := .ok (),
    markPageAttempts := [], screenshotCall := .ok "img" }

/-- Witness for the C8 theorem at a concrete environment whose load
never stabilizes. -/
theorem annotate_page_total_witness :
    annotatePage degradedEnv =
      degradedObs ("Failed to stabilize page load. Error: " ++ degradedEnv.loadErr) ∧
    (annotatePage degradedEnv).bboxes = [] :=
  (annotate_page_total_and_degrades degradedEnv).1 (fun _ hc => nomatch hc) rfl rfl

/-! Instance counter theorems. -/

/-- Counterexample to C9 at a concrete input: with two live agents
(counter 2), disposing the same agent twice drives the counter to 0 —
the second `dispose` call is not a no-op and the counter is decremented
twice for the same agent.  `dispose` reads no per-instance state (it is
a function of the counter alone), so a repeated call on the same agent
is a repeated application. -/
theorem dispose_not_idempotent :
    dispose (dispose 2) = 0 ∧ dispose 2 = 1 ∧ dispose (dispose 2) ≠ dispose 2 := by
  decide

theorem runCounter_bounds (maxInstances : Int) (events : List CounterEvent) :
    ∀ count : Int, 0 ≤ count → count ≤ maxInstances →
      0 ≤ runCounter maxInstances count events ∧
      runCounter maxInstances count events ≤ maxInstances := by
  induction events with
  | nil =>
    intro c h0 h1
    exact ⟨h0, h1⟩
  | cons ev rest ih =>
    intro c h0 h1
    have hstep : 0 ≤ stepCounter maxInstances c ev ∧
        stepCounter maxInstances c ev ≤ maxInstances := by
      cases ev with
      | create =>
        by_cases h : c ≥ maxInstances
        · simpa [stepCounter, createAgent, h] using ⟨h0, h1⟩
        · simp only [stepCounter, createAgent, h, if_neg, ite_false]
          constructor
          · linarith
          · have := not_le.mp h
            linarith
      | disposeEvent =>
        by_cases h : c > 0
        · simp only [stepCounter, dispose, h, ite_true]
          constructor <;> linarith
        · simpa [stepCounter, dispose, h] using ⟨h0, h1⟩
    have hrest := ih (stepCounter maxInstances c ev) hstep.1 hstep.2
    simpa [runCounter, List.foldl_cons] using hrest

/-- C9 (amended): `dispose` is guarded only against underflow — it is a
no-op exactly when the counter is not positive, and decrements otherwise;
it does not track per-agent disposal, so a second dispose of the same
agent decrements again whenever the counter is positive; under any
sequence of creations and disposals the counter stays within
`[0, MAX]`. -/
theorem dispose_guard_and_counter_invariant (maxInstances count : Int)
    (events : List CounterEvent) :
    (∀ c : Int, c ≤ 0 → dispose c = c) ∧
    (∀ c : Int, 0 < c → dispose c = c - 1) ∧
    (0 ≤ count → count ≤ maxInstances →
      0 ≤ runCounter maxInstances count events ∧
      runCounter maxInstances count events ≤ maxInstances) := by
  refine ⟨?_, ?_, fun h0 h1 => runCounter_bounds maxInstances events count h0 h1⟩
  · intro c hc
    simp [dispose, not_lt.mpr hc]
  · intro c hc
    simp [dispose, hc]

/-- Witness for the amended C9 theorem at a concrete event sequence
containing a double disposal. -/
theorem dispose_guard_witness :
    0 ≤ runCounter 5 0 [.create, .disposeEvent, .disposeEvent] ∧
    runCounter 5 0 [.create, .disposeEvent, .disposeEvent] ≤ 5 :=
  (dispose_guard_and_counter_invariant 5 0 [.create, .disposeEvent, .disposeEvent]).2.2
    (by decide) (by decide)

/-! The wait_for tool. -/

/-- C10: `wait_for` never increments the action count (no branch of the
source calls `increment_action_count`), and — provided the current page
resolves — a call with neither a time nor an element index returns
"No wait condition provided." without performing any wait. -/
theorem wait_for_no_condition (env : WaitEnv) (time : Option ℚ) (bboxId : Option Int)
    (state : String) :
    (waitFor env time bboxId state).countDelta = 0 ∧
    (env.pageOk = .ok () →
      waitFor env none none state =
        { message := "No wait condition provided.", countDelta := 0, waited := false }) := by
  constructor
  · unfold waitFor
    repeat' split
    all_goals rfl
  · intro h
    simp [waitFor, h]

/-- Sample environment for `wait_for` with a healthy current page. -/
def waitEnvOk : WaitEnv :=
  { pageOk := .ok (), bboxes := [], waitSelectorCall := .ok () }

/-- Witness for the C10 theorem at a concrete environment. -/
theorem wait_for_no_condition_witness :
    waitFor waitEnvOk none none "attached" =
      { message := "No wait condition provided.", countDelta := 0, waited := false } :=
  (wait_for_no_condition waitEnvOk none none "attached").2 rfl

end Kagebunshin
